import Mathlib

/-!
Shallow embedding of the session/authentication subsystem of the
soil-backend repository (src/controllers/User.ts together with the
handler wrapper in src/controllers/index.ts), plus small models of the
external collaborators the controllers use: the sequelize tables
(UserTable, RefreshTokenTable), the jsonwebtoken library (sign, verify,
decode) and bcrypt (hash, compare).

Modelling conventions:
  - Machine state is a `Store` holding the two tables as lists of rows in
    insertion order (a sequelize findOne returns the first match;
    findOne with order expiration DESC returns a row of maximal
    expiration, first-inserted winning ties, matching a stable sort).
  - Randomness (crypto.randomBytes) is an oracle: the random string a
    call would produce is passed to the operation as an explicit
    argument.
  - bcrypt is modelled abstractly but executably: `bcryptHash` tags the
    password, and `bcryptCompare p h` holds exactly when `h` was
    produced by hashing `p`. Salting is irrelevant to the control flow
    verified here, which only branches on the boolean compare result.
  - JWTs are first-class values: a token is either `malformed` (a string
    that does not parse as a JWT at all, on which jwt.decode returns
    null) or `signed payload secret exp`, recording the claim set, the
    secret it was signed with, and the expiration instant. jwt.verify
    checks the secret and the clock; jwt.decode looks only at the
    payload, exactly as the jsonwebtoken library behaves.
  - Clock instants are naturals (milliseconds); `now` is an explicit
    argument of each operation that reads the clock.
  - Thrown JS exceptions are an `Except Thrown` value: `Thrown.http e`
    is a thrown `HttpError e`, `Thrown.jsError` any other thrown
    `Error` (bare `new Error()`, jwt library errors, TypeError from
    destructuring null, storage errors). `tryCatchHandler` maps them to
    the HTTP response exactly as src/controllers/index.ts does.
-/

/-- A row of UserTable (src/models/user.model): id, name, email, password
hash and the administrative blocked flag. -/
structure UserRow where
  id : Nat
  name : String
  email : String
  pswdHash : String
  isBlocked : Bool
deriving DecidableEq, Repr

/-- A row of RefreshTokenTable (src/models/refreshToken.model). -/
structure RefreshTokenRow where
  userId : Nat
  refreshToken : String
  expiration : Nat
deriving DecidableEq, Repr

/-- The persistent state the session controllers touch: the two tables,
in insertion order, and the auto-increment counter for user ids. -/
structure Store where
  users : List UserRow
  refreshTokens : List RefreshTokenRow
  nextId : Nat
deriving DecidableEq, Repr

/-- `UserTable.findOne where email`: first user row with this email. -/
def findUserByEmail (st : Store) (email : String) : Option UserRow :=
  st.users.find? (fun u => u.email == email)

/-- `UserTable.findOne where id`: first user row with this id. -/
def findUserById (st : Store) (id : Nat) : Option UserRow :=
  st.users.find? (fun u => u.id == id)

/-- `RefreshTokenTable.findOne where refreshToken, userId`. -/
def findRefreshToken (st : Store) (refreshToken : String) (userId : Nat) :
    Option RefreshTokenRow :=
  st.refreshTokens.find? (fun r => r.refreshToken == refreshToken && r.userId == userId)

/-- `RefreshTokenTable.count where userId`. -/
def countRefreshTokens (st : Store) (userId : Nat) : Nat :=
  (st.refreshTokens.filter (fun r => r.userId == userId)).length

/-- One step of scanning for the row of maximal expiration: keep the
incumbent unless the candidate expires strictly later. -/
def newestStep (acc : Option RefreshTokenRow) (r : RefreshTokenRow) :
    Option RefreshTokenRow :=
  match acc with
  | none => some r
  | some b => if b.expiration < r.expiration then some r else some b

/-- `RefreshTokenTable.findOne where userId, order expiration DESC`:
a row of maximal expiration among the rows of this user, the
first-inserted row winning ties (stable descending sort). -/
def findNewestRefreshToken (st : Store) (userId : Nat) : Option RefreshTokenRow :=
  (st.refreshTokens.filter (fun r => r.userId == userId)).foldl newestStep none

/-- `RefreshTokenTable.destroy where userId`. -/
def destroyRefreshTokensFor (st : Store) (userId : Nat) : Store :=
  { st with refreshTokens := st.refreshTokens.filter (fun r => !(r.userId == userId)) }

/-- Abstract executable model of bcrypt.hash: the hash determines and is
determined by the plaintext. -/
def bcryptHash (pswd : String) : String :=
  "bcrypt$" ++ pswd

/-- Abstract model of bcrypt.compare: succeeds exactly on the hash of the
candidate plaintext. -/
def bcryptCompare (pswd hash : String) : Bool :=
  hash == bcryptHash pswd

/-- A JWT claim set: the controllers sign either an access-token payload
carrying a userId or a reset-code payload carrying an email. -/
inductive JwtPayload where
  | user (userId : Nat)
  | email (email : String)
deriving DecidableEq, Repr

/-- A JWT value as the jsonwebtoken library sees it: either a string that
does not parse as a token at all, or a signed token carrying its claim
set, the secret it was signed with, and its expiration instant. -/
inductive JwtToken where
  | malformed (raw : String)
  | signed (payload : JwtPayload) (secret : String) (exp : Nat)
deriving DecidableEq, Repr

/-- Outcomes of jwt.verify raising: jsonwebtoken throws TokenExpiredError
on a stale token, JsonWebTokenError on a malformed token or a bad
signature; `other` stands for any further error reaching the same catch
block. -/
inductive JwtError where
  | tokenExpiredError
  | jsonWebTokenError
  | other
deriving DecidableEq, Repr

/-- jwt.sign: produce a token signed with the secret expiring at `exp`. -/
def jwtSign (payload : JwtPayload) (secret : String) (exp : Nat) : JwtToken :=
  JwtToken.signed payload secret exp

/-- jwt.verify: checks parse, signature and expiry, in that order. -/
def jwtVerify (secret : String) (now : Nat) : JwtToken → Except JwtError JwtPayload
  | JwtToken.malformed _ => Except.error JwtError.jsonWebTokenError
  | JwtToken.signed payload s exp =>
      if s != secret then Except.error JwtError.jsonWebTokenError
      else if exp ≤ now then Except.error JwtError.tokenExpiredError
      else Except.ok payload

/-- jwt.decode: returns the claim set without checking the signature or
the expiry; returns null (here `none`) only when the string does not
parse as a token. -/
def jwtDecode : JwtToken → Option JwtPayload
  | JwtToken.malformed _ => none
  | JwtToken.signed payload _ _ => some payload

/-- Extract the userId field of a decoded claim set, as the destructuring
`const x = jwt.decode(t) as ... ; const userId = x.userId` does. `none`
covers both a null decode result (destructuring throws TypeError) and a
claim set without a userId field (the undefined userId then makes the
subsequent sequelize where-clause throw); both throws land in the same
catch of tryCatchHandler. -/
def decodedUserId (t : JwtToken) : Option Nat :=
  match jwtDecode t with
  | some (JwtPayload.user userId) => some userId
  | some (JwtPayload.email _) => none
  | none => none

/-- The HttpError class of src/controllers/index.ts. -/
structure HttpError where
  msg : String
  status : Nat
deriving DecidableEq, Repr

/-- A thrown JS exception as tryCatchHandler classifies it: an HttpError,
or any other Error. -/
inductive Thrown where
  | http (e : HttpError)
  | jsError
deriving DecidableEq, Repr

/-- tryCatchHandler of src/controllers/index.ts: a successful body is the
200 response; a thrown HttpError is surfaced with its own status and
message; any other Error becomes the default error code and message the
controller supplied. -/
def tryCatchHandler {α : Type} (defaultErrorCode : Nat) (defaultErrorMsg : String) :
    Except Thrown α → Except HttpError α
  | Except.ok a => Except.ok a
  | Except.error (Thrown.http e) => Except.error e
  | Except.error Thrown.jsError => Except.error ⟨defaultErrorMsg, defaultErrorCode⟩

/-- jwt expiresIn 1h, in seconds as the jsonwebtoken exp claim counts. -/
def ONE_HOUR : Nat := 3600

/-- User.ts line 99: 30 days in milliseconds. -/
def REFRESH_TOKEN_EXPIRATION : Nat := 1000 * 60 * 60 * 24 * 30

/-- getAccessToken of User.ts: sign a userId claim set, expiring in 1h. -/
def getAccessToken (secret : String) (now : Nat) (userId : Nat) : JwtToken :=
  jwtSign (JwtPayload.user userId) secret (now + ONE_HOUR)

/-- JS truthiness of the un-awaited RefreshTokenTable.findOne call at
User.ts line 81: the binding there misses `await`, so the bound value is
the pending Promise object, and a Promise object is truthy regardless of
the row the query would resolve to. -/
def jsPromiseTruthy {α : Type} (_resolvesTo : α) : Bool :=
  true

/-- Body of getNewAccessToken (User.ts lines 76 to 91): decode the access
token (a null decode makes the destructuring throw TypeError), run the
refresh-token lookup without awaiting it, test the truthiness of the
resulting Promise, and mint a fresh access token. -/
def getNewAccessTokenBody (secret : String) (now : Nat) (st : Store)
    (accessToken : JwtToken) (refreshToken : String) : Except Thrown JwtToken :=
  match decodedUserId accessToken with
  | none => Except.error Thrown.jsError
  | some userId =>
      let refreshTokenInDb := jsPromiseTruthy (findRefreshToken st refreshToken userId)
      if !refreshTokenInDb then
        Except.error (Thrown.http ⟨"Invalid refresh token.", 401⟩)
      else
        Except.ok (getAccessToken secret now userId)

/-- getNewAccessToken as exported: the body under tryCatchHandler with
the default error (401, generic message). -/
def getNewAccessToken (secret : String) (now : Nat) (st : Store)
    (accessToken : JwtToken) (refreshToken : String) : Except HttpError JwtToken :=
  tryCatchHandler 401 "An unexpected error occurred"
    (getNewAccessTokenBody secret now st accessToken refreshToken)

/-- Contiguous-substring test on character lists: does `needle` occur as
a contiguous run inside the second list. -/
def charsContains (needle : List Char) : List Char → Bool
  | [] => needle.isEmpty
  | c :: t => needle.isPrefixOf (c :: t) || charsContains needle t

/-- The characters of a string, lowercased: the case-insensitive
comparison domain of the password policy. -/
def lowerChars (s : String) : List Char :=
  s.data.map Char.toLower

/-- The record getPswdValidities returns (destructured at User.ts 51). -/
structure PswdValidities where
  pswdLen : Bool
  nameOrEmail : Bool
  ul : Bool
  ll : Bool
  nums : Bool
  specChars : Bool
deriving DecidableEq, Repr

/-- Modelled from the spec: getPswdValidities lives in src/shared/utils,
which is absent from the provided sources. Section 4.1 (PasswordPolicy)
specifies: reject passwords that are a substring of the name or email
(case-insensitive); require a minimum length, at least one uppercase
letter, one lowercase letter, one digit and one special character; and
enforce an absolute maximum password length of 100 characters upstream
of hashing. The exact minimum length is not given by the spec; 8 is used
here and no claim settled below depends on its value. -/
def getPswdValidities (name email pswd : String) : PswdValidities :=
  { pswdLen := decide (8 ≤ pswd.length) && decide (pswd.length ≤ 100)
    nameOrEmail := !(charsContains (lowerChars pswd) (lowerChars name) ||
                     charsContains (lowerChars pswd) (lowerChars email))
    ul := pswd.data.any Char.isUpper
    ll := pswd.data.any Char.isLower
    nums := pswd.data.any Char.isDigit
    specChars := pswd.data.any (fun c => !c.isAlphanum) }

/-- isPswdValid of User.ts lines 50 to 58: the conjunction of the six
validities. -/
def isPswdValid (name email pswd : String) : Bool :=
  let v := getPswdValidities name email pswd
  v.pswdLen && v.nameOrEmail && v.ul && v.ll && v.nums && v.specChars

/-- createRefreshToken of User.ts lines 96 to 107: insert a row for the
user with a 30-day expiration and return the opaque token string. The
random string crypto.randomBytes would produce is the argument `rnd`. -/
def createRefreshToken (now : Nat) (st : Store) (userId : Nat) (rnd : String) :
    String × Store :=
  (rnd, { st with refreshTokens :=
            st.refreshTokens ++ [⟨userId, rnd, now + REFRESH_TOKEN_EXPIRATION⟩] })

/-- The refresh-token acquisition step of logInUser (User.ts lines 178 to
194): count the rows of the user; at most 100 means create a fresh
token; otherwise return the row of the user with the latest expiration,
and throw a bare Error if that lookup finds nothing. -/
def obtainRefreshToken (now : Nat) (st : Store) (userId : Nat) (rnd : String) :
    Except Thrown (String × Store) :=
  let count := countRefreshTokens st userId
  if count ≤ 100 then
    Except.ok (createRefreshToken now st userId rnd)
  else
    match findNewestRefreshToken st userId with
    | none => Except.error Thrown.jsError
    | some row => Except.ok (row.refreshToken, st)

/-- The success payload of logInUser. -/
structure LoginData where
  id : Nat
  name : String
  accessToken : JwtToken
  refreshToken : String
deriving DecidableEq, Repr

/-- Body of logInUser (User.ts lines 159 to 203): look the user up by
email, bcrypt-compare against the stored hash (empty string when no user
matched), fail with the generic invalid-credentials message on a missing
user or a mismatch, then fail with the distinct blocked message when the
matched user is blocked, and otherwise mint an access token and obtain a
refresh token per the cap rule. -/
def logInUserBody (secret : String) (now : Nat) (st : Store)
    (email password rnd : String) : Except Thrown LoginData × Store :=
  let user := findUserByEmail st email
  let isMatch := bcryptCompare password ((user.map UserRow.pswdHash).getD "")
  match user with
  | none => (Except.error (Thrown.http ⟨"Invalid credentials.", 401⟩), st)
  | some u =>
      if !isMatch then
        (Except.error (Thrown.http ⟨"Invalid credentials.", 401⟩), st)
      else if u.isBlocked then
        (Except.error (Thrown.http
          ⟨"This account has been blocked. Please contact the admin.", 401⟩), st)
      else
        let accessToken := getAccessToken secret now u.id
        match obtainRefreshToken now st u.id rnd with
        | Except.error t => (Except.error t, st)
        | Except.ok (refreshToken, st2) =>
            (Except.ok ⟨u.id, u.name, accessToken, refreshToken⟩, st2)

/-- logInUser as exported: body under tryCatchHandler with its default
error (401, generic message). -/
def logInUser (secret : String) (now : Nat) (st : Store)
    (email password rnd : String) : Except HttpError LoginData × Store :=
  let r := logInUserBody secret now st email password rnd
  (tryCatchHandler 401 "An unexpected error occurred" r.1, r.2)

/-- The success payload of createUser. -/
structure SignupData where
  id : Nat
  accessToken : JwtToken
  refreshToken : String
deriving DecidableEq, Repr

/-- Body of createUser (User.ts lines 123 to 157): user-count ceiling,
the 100-character password bound ahead of hashing, the password policy,
then creation; a duplicate email or name violates the sequelize unique
constraint, which throws (mapped by the handler to the 409 default). -/
def createUserBody (secret : String) (now : Nat) (st : Store)
    (email name password rnd : String) : Except Thrown SignupData × Store :=
  if 4294967295 ≤ st.users.length then
    (Except.error (Thrown.http ⟨"User limit reached.", 403⟩), st)
  else if 100 < password.length then
    (Except.error (Thrown.http ⟨"Password too long.", 400⟩), st)
  else if !(isPswdValid name email password) then
    (Except.error (Thrown.http ⟨"Invalid password.", 400⟩), st)
  else if st.users.any (fun u => u.email == email || u.name == name) then
    (Except.error Thrown.jsError, st)
  else
    let uid := st.nextId
    let st2 : Store :=
      { st with users := st.users ++ [⟨uid, name, email, bcryptHash password, false⟩],
                nextId := st.nextId + 1 }
    let accessToken := getAccessToken secret now uid
    let r := createRefreshToken now st2 uid rnd
    (Except.ok ⟨uid, accessToken, r.1⟩, r.2)

/-- createUser as exported: body under tryCatchHandler with default
(409, "Email or name already taken."). -/
def createUser (secret : String) (now : Nat) (st : Store)
    (email name password rnd : String) : Except HttpError SignupData × Store :=
  let r := createUserBody secret now st email name password rnd
  (tryCatchHandler 409 "Email or name already taken." r.1, r.2)

/-- updatePswd of User.ts lines 384 to 390: persist the bcrypt hash of
the new password on the user row and destroy every refresh token of the
user. -/
def updatePswd (st : Store) (userId : Nat) (newPassword : String) : Store :=
  let pswdHash := bcryptHash newPassword
  let st2 : Store :=
    { st with users :=
        st.users.map (fun u =>
          if u.id == userId then { u with pswdHash := pswdHash } else u) }
  destroyRefreshTokensFor st2 userId

/-- Body of checkOldPswd (User.ts lines 248 to 281): verify the access
token (a jwt error throws, landing on the handler default), look the
user up (a missing user throws a bare Error), then bcrypt-compare; a
mismatch throws HttpError 401 and a match returns true. -/
def checkOldPswdBody (secret : String) (now : Nat) (st : Store)
    (accessToken : JwtToken) (oldPassword : String) : Except Thrown Bool :=
  match jwtVerify secret now accessToken with
  | Except.error _ => Except.error Thrown.jsError
  | Except.ok (JwtPayload.email _) => Except.error Thrown.jsError
  | Except.ok (JwtPayload.user userId) =>
      match findUserById st userId with
      | none => Except.error Thrown.jsError
      | some u =>
          if !(bcryptCompare oldPassword u.pswdHash) then
            Except.error (Thrown.http ⟨"Invalid old password.", 401⟩)
          else
            Except.ok true

/-- checkOldPswd as exported: body under tryCatchHandler with default
(404, "Old password is incorrect."). -/
def checkOldPswd (secret : String) (now : Nat) (st : Store)
    (accessToken : JwtToken) (oldPassword : String) : Except HttpError Bool :=
  tryCatchHandler 404 "Old password is incorrect."
    (checkOldPswdBody secret now st accessToken oldPassword)

/-- Body of changePassword (User.ts lines 283 to 320): verify the access
token, look the user up, require the old password to match, require the
new password to pass the policy against the current name and email, then
updatePswd. -/
def changePasswordBody (secret : String) (now : Nat) (st : Store)
    (accessToken : JwtToken) (oldPassword newPassword : String) :
    Except Thrown Bool × Store :=
  match jwtVerify secret now accessToken with
  | Except.error _ => (Except.error Thrown.jsError, st)
  | Except.ok (JwtPayload.email _) => (Except.error Thrown.jsError, st)
  | Except.ok (JwtPayload.user userId) =>
      match findUserById st userId with
      | none => (Except.error Thrown.jsError, st)
      | some u =>
          if !(bcryptCompare oldPassword u.pswdHash) then
            (Except.error (Thrown.http ⟨"Invalid old password.", 401⟩), st)
          else if !(isPswdValid u.name u.email newPassword) then
            (Except.error (Thrown.http ⟨"Invalid new password.", 403⟩), st)
          else
            (Except.ok true, updatePswd st userId newPassword)

/-- changePassword as exported: body under tryCatchHandler with default
(404, "User not found"). -/
def changePassword (secret : String) (now : Nat) (st : Store)
    (accessToken : JwtToken) (oldPassword newPassword : String) :
    Except HttpError Bool × Store :=
  let r := changePasswordBody secret now st accessToken oldPassword newPassword
  (tryCatchHandler 404 "User not found" r.1, r.2)

/-- The catch block of forgotPswd (User.ts lines 358 to 369): expired
code 403, malformed or bad-signature code 401, anything else 500 (the
message typo is the source text). -/
def forgotPswdCatch : JwtError → HttpError
  | JwtError.tokenExpiredError => ⟨"Code has expired", 403⟩
  | JwtError.jsonWebTokenError => ⟨"Invalid code", 401⟩
  | JwtError.other => ⟨"An unexpecteed error occurred in code verification", 500⟩

/-- Body of forgotPswd (User.ts lines 346 to 382): verify the code with
the catch block above, look the user up by the embedded email (404 when
gone), generate a fresh random password (the oracle argument `rnd`,
standing for crypto.randomBytes(8).toString base64), updatePswd, and
return the plaintext. -/
def forgotPswdBody (secret : String) (now : Nat) (st : Store)
    (code : JwtToken) (rnd : String) : Except Thrown String × Store :=
  match jwtVerify secret now code with
  | Except.error e => (Except.error (Thrown.http (forgotPswdCatch e)), st)
  | Except.ok (JwtPayload.user _) => (Except.error Thrown.jsError, st)
  | Except.ok (JwtPayload.email email) =>
      match findUserByEmail st email with
      | none => (Except.error (Thrown.http ⟨"User doesn\x27t exist anymore", 404⟩), st)
      | some u => (Except.ok rnd, updatePswd st u.id rnd)

/-- forgotPswd as exported: body under tryCatchHandler with default
(403, "Code has expired."). -/
def forgotPswd (secret : String) (now : Nat) (st : Store)
    (code : JwtToken) (rnd : String) : Except HttpError String × Store :=
  let r := forgotPswdBody secret now st code rnd
  (tryCatchHandler 403 "Code has expired." r.1, r.2)

/-- A sample user for concrete evaluations. -/
def aliceU : UserRow := ⟨1, "alice", "alice@x.com", bcryptHash "Old1!aaa", false⟩

/-- A store holding alice and one refresh token of hers. -/
def stTok : Store := ⟨[aliceU], [⟨1, "rt1", 500⟩], 2⟩

/-- A store holding alice and no refresh token at all. -/
def stNoTok : Store := ⟨[aliceU], [], 2⟩

/-- A store holding a blocked copy of alice and no refresh token. -/
def stBlocked : Store := ⟨[⟨1, "alice", "alice@x.com", bcryptHash "Old1!aaa", true⟩], [], 2⟩

/-- A store holding 101 refresh-token rows of user 7. -/
def capStore : Store := ⟨[], (List.range 101).map (fun i => ⟨7, "t" ++ Nat.repr i, i⟩), 1⟩

/-- The same store with the isBlocked flag of one user replaced: the
comparison state for the C9 noninterference statement. -/
def setBlocked (st : Store) (userId : Nat) (b : Bool) : Store :=
  { st with users :=
      st.users.map (fun u => if u.id == userId then { u with isBlocked := b } else u) }

/-- A sequence of logins with the same credentials: each element of the
supply is the clock instant and the random token string of one login;
the store is threaded through. -/
def loginSequence (secret email password : String) : Store → List (Nat × String) → Store
  | st, [] => st
  | st, nr :: rest =>
      loginSequence secret email password
        ((logInUser secret nr.1 st email password nr.2).2) rest

/-- A 101-character password. -/
def longPswd : String := String.mk (List.replicate 101 'a')

/-- Clock instants and token strings for 101 consecutive logins. -/
def supply101 : List (Nat × String) := (List.range 101).map (fun i => (i, "w" ++ Nat.repr i))

/-- The first fold step of findNewestRefreshToken always yields a row. -/
lemma newestStep_isSome (acc : Option RefreshTokenRow) (r : RefreshTokenRow) :
    (newestStep acc r).isSome = true := by
  cases acc with
  | none => rfl
  | some b =>
      simp only [newestStep]
      split <;> rfl

/-- Folding newestStep from a present accumulator stays present. -/
lemma foldl_newestStep_isSome (l : List RefreshTokenRow) (acc : Option RefreshTokenRow)
    (h : acc.isSome = true) : (l.foldl newestStep acc).isSome = true := by
  induction l generalizing acc with
  | nil => exact h
  | cons r t ih =>
      rw [List.foldl_cons]
      exact ih _ (newestStep_isSome acc r)

/-- A user with at least one refresh token row always has a newest one. -/
lemma findNewestRefreshToken_isSome (st : Store) (userId : Nat)
    (h : 0 < countRefreshTokens st userId) :
    (findNewestRefreshToken st userId).isSome = true := by
  unfold findNewestRefreshToken
  unfold countRefreshTokens at h
  cases hl : st.refreshTokens.filter (fun r => r.userId == userId) with
  | nil => rw [hl] at h; simp at h
  | cons r t =>
      rw [List.foldl_cons]
      exact foldl_newestStep_isSome t (newestStep none r) (newestStep_isSome none r)

/-- find? commutes with mapping a function that the predicate cannot
distinguish. -/
lemma find_map_comm {α : Type} (f : α → α) (p : α → Bool) (hp : ∀ a, p (f a) = p a)
    (l : List α) : (l.map f).find? p = (l.find? p).map f := by
  induction l with
  | nil => rfl
  | cons a t ih =>
      cases h : p a with
      | true =>
          rw [List.map_cons, List.find?_cons_of_pos _ (by rw [hp, h]),
            List.find?_cons_of_pos _ h, Option.map_some']
      | false =>
          rw [List.map_cons, List.find?_cons_of_neg _ (by simp [hp, h]),
            List.find?_cons_of_neg _ (by simp [h]), ih]

/-- C1: the spec says a refresh whose (refreshToken, userId) pair matches
no stored row fails 401 with the invalid-refresh-token message. The code
does not: the RefreshTokenTable.findOne at User.ts line 81 is not
awaited, the bound value is the pending Promise, a Promise object is
truthy, and the 401 branch at line 84 is dead. At a store holding no
refresh token row at all, the refresh succeeds and returns a fresh
access token. -/
theorem c1_missing_row_refresh_still_succeeds :
    findRefreshToken stNoTok "anytoken" 1 = none ∧
    getNewAccessToken "s" 0 stNoTok (jwtSign (JwtPayload.user 1) "s" 9999) "anytoken"
      = Except.ok (getAccessToken "s" 0 1) :=
  ⟨rfl, rfl⟩

/-- C2 counterexample: the claim says a tampered access token (invalid
signature) makes the refresh fail. Here is a token signed with the wrong
secret, which jwt.verify rejects as a JsonWebTokenError, presented
together with a genuinely stored refresh token: the refresh succeeds. -/
theorem c2_tampered_token_refresh_succeeds :
    jwtVerify "s" 0 (JwtToken.signed (JwtPayload.user 1) "evil" 9999)
      = Except.error JwtError.jsonWebTokenError ∧
    findRefreshToken stTok "rt1" 1 = some ⟨1, "rt1", 500⟩ ∧
    getNewAccessToken "s" 0 stTok (JwtToken.signed (JwtPayload.user 1) "evil" 9999) "rt1"
      = Except.ok (getAccessToken "s" 0 1) :=
  ⟨rfl, rfl, rfl⟩

/-- C2 (amended): with a refreshToken stored for the user, refreshing
with an expired but well-formed accessToken succeeds; refreshing with a
tampered accessToken (wrong signature) whose payload still decodes ALSO
succeeds, because jwt.decode performs no signature check at all; only an
accessToken that fails to decode (malformed) is rejected, and then with
the generic handler default, not the invalid-refresh-token message. -/
theorem c2_refresh_decode_no_signature_check (secret s2 raw : String) (now e1 e2 : Nat)
    (st : Store) (uid : Nat) (rt : String)
    (hstored : (findRefreshToken st rt uid).isSome = true) :
    (e1 ≤ now →
       getNewAccessToken secret now st (JwtToken.signed (JwtPayload.user uid) secret e1) rt
         = Except.ok (getAccessToken secret now uid)) ∧
    (s2 ≠ secret →
       getNewAccessToken secret now st (JwtToken.signed (JwtPayload.user uid) s2 e2) rt
         = Except.ok (getAccessToken secret now uid)) ∧
    getNewAccessToken secret now st (JwtToken.malformed raw) rt
      = Except.error ⟨"An unexpected error occurred", 401⟩ :=
  ⟨fun _ => rfl, fun _ => rfl, rfl⟩

/-- Witness for C2 at concrete inputs: an expired well-formed token, a
tampered token and a malformed token against a store holding the
presented refresh token. -/
theorem c2_refresh_decode_no_signature_check_witness :
    getNewAccessToken "s" 600 stTok (JwtToken.signed (JwtPayload.user 1) "s" 500) "rt1"
      = Except.ok (getAccessToken "s" 600 1) ∧
    getNewAccessToken "s" 600 stTok (JwtToken.signed (JwtPayload.user 1) "evil" 500) "rt1"
      = Except.ok (getAccessToken "s" 600 1) ∧
    getNewAccessToken "s" 600 stTok (JwtToken.malformed "junk") "rt1"
      = Except.error ⟨"An unexpected error occurred", 401⟩ := by
  have h := c2_refresh_decode_no_signature_check "s" "evil" "junk" 600 500 500 stTok 1 "rt1"
    (by rfl)
  exact ⟨h.1 (by omega), h.2.1 (by decide), h.2.2⟩

/-- C6: a login against a blocked user whose password matches fails 401
with the distinct account-blocked message (not the generic one) and
leaves the store untouched, so no token is minted or persisted. -/
theorem c6_blocked_login_distinct_message (secret : String) (now : Nat) (st : Store)
    (email password rnd : String) (u : UserRow)
    (hu : findUserByEmail st email = some u)
    (hm : bcryptCompare password u.pswdHash = true)
    (hb : u.isBlocked = true) :
    logInUser secret now st email password rnd =
      (Except.error ⟨"This account has been blocked. Please contact the admin.", 401⟩, st) := by
  simp [logInUser, logInUserBody, hu, hm, hb, tryCatchHandler]

/-- Witness for C6: blocked alice with the right password. -/
theorem c6_blocked_login_distinct_message_witness :
    logInUser "s" 0 stBlocked "alice@x.com" "Old1!aaa" "newtok" =
      (Except.error ⟨"This account has been blocked. Please contact the admin.", 401⟩,
       stBlocked) :=
  c6_blocked_login_distinct_message "s" 0 stBlocked "alice@x.com" "Old1!aaa" "newtok"
    ⟨1, "alice", "alice@x.com", bcryptHash "Old1!aaa", true⟩ rfl rfl rfl

/-- C8 counterexample: the claim says a non-matching password yields a
boolean false result; the code instead throws HttpError 401 with the
invalid-old-password message. -/
theorem c8_wrong_password_is_401_not_false :
    checkOldPswd "s" 0 stTok (jwtSign (JwtPayload.user 1) "s" 9999) "wrongpswd"
      = Except.error ⟨"Invalid old password.", 401⟩ ∧
    (Except.error ⟨"Invalid old password.", 401⟩ : Except HttpError Bool)
      ≠ Except.ok false :=
  ⟨rfl, fun h => Except.noConfusion h⟩

/-- C8 (amended): with a valid access token, checkOldPswd fails NotFound
(404, with the handler default message) when the user is gone, returns
true on a matching password, and fails Unauthorized (401, invalid old
password) on a non-matching password, instead of returning false. -/
theorem c8_check_old_pswd_behavior (secret : String) (now : Nat) (st : Store)
    (tok : JwtToken) (oldPassword : String) (uid : Nat)
    (hv : jwtVerify secret now tok = Except.ok (JwtPayload.user uid)) :
    (findUserById st uid = none →
        checkOldPswd secret now st tok oldPassword
          = Except.error ⟨"Old password is incorrect.", 404⟩) ∧
    (∀ u, findUserById st uid = some u → bcryptCompare oldPassword u.pswdHash = true →
        checkOldPswd secret now st tok oldPassword = Except.ok true) ∧
    (∀ u, findUserById st uid = some u → bcryptCompare oldPassword u.pswdHash = false →
        checkOldPswd secret now st tok oldPassword
          = Except.error ⟨"Invalid old password.", 401⟩) := by
  refine ⟨fun h => ?_, fun u hu hm => ?_, fun u hu hm => ?_⟩ <;>
    simp_all [checkOldPswd, checkOldPswdBody, tryCatchHandler]

/-- Witness for C8: a missing user and a matching password at concrete
inputs. -/
theorem c8_check_old_pswd_behavior_witness :
    checkOldPswd "s" 0 stTok (jwtSign (JwtPayload.user 5) "s" 9999) "x"
      = Except.error ⟨"Old password is incorrect.", 404⟩ ∧
    checkOldPswd "s" 0 stTok (jwtSign (JwtPayload.user 1) "s" 9999) "Old1!aaa"
      = Except.ok true := by
  exact ⟨(c8_check_old_pswd_behavior "s" 0 stTok (jwtSign (JwtPayload.user 5) "s" 9999)
            "x" 5 rfl).1 rfl,
         (c8_check_old_pswd_behavior "s" 0 stTok (jwtSign (JwtPayload.user 1) "s" 9999)
            "Old1!aaa" 1 rfl).2.1 aliceU rfl rfl⟩

/-- C10: whenever the refresh-token count of a user exceeds 100, the
descending-expiration lookup finds a row, so the bare internal-error
branch of the login cap logic is unreachable: the step returns that row
and leaves the store untouched. -/
theorem c10_cap_branch_never_internal_error (now : Nat) (st : Store) (userId : Nat)
    (rnd : String) (h : 100 < countRefreshTokens st userId) :
    ∃ row, findNewestRefreshToken st userId = some row ∧
      obtainRefreshToken now st userId rnd = Except.ok (row.refreshToken, st) := by
  have hs : (findNewestRefreshToken st userId).isSome = true :=
    findNewestRefreshToken_isSome st userId (by omega)
  obtain ⟨row, hrow⟩ := Option.isSome_iff_exists.mp hs
  refine ⟨row, hrow, ?_⟩
  unfold obtainRefreshToken
  have hc : ¬ (countRefreshTokens st userId ≤ 100) := by omega
  simp [hc, hrow]

/-- Witness for C10 at a store with 101 rows of the user. -/
theorem c10_cap_branch_never_internal_error_witness :
    ∃ row, findNewestRefreshToken capStore 7 = some row ∧
      obtainRefreshToken 0 capStore 7 "fresh" = Except.ok (row.refreshToken, capStore) :=
  c10_cap_branch_never_internal_error 0 capStore 7 "fresh" (by decide)

/-- C3: after a successful changePassword every refresh token of the
user is deleted from the store (the first half of the claim holds), but
a subsequent refresh presenting a pre-change refreshToken still
SUCCEEDS, where the claim says it fails Unauthorized: the un-awaited
findOne at User.ts line 81 makes the absence check dead. Evaluated at
the failing input: alice holds token rt1, changes her password, then
refreshes with rt1. -/
theorem c3_prechange_token_refresh_still_succeeds :
    (changePassword "s" 0 stTok (jwtSign (JwtPayload.user 1) "s" 9999)
        "Old1!aaa" "N3w!pass").1 = Except.ok true ∧
    (changePassword "s" 0 stTok (jwtSign (JwtPayload.user 1) "s" 9999)
        "Old1!aaa" "N3w!pass").2.refreshTokens = [] ∧
    getNewAccessToken "s" 0
        (changePassword "s" 0 stTok (jwtSign (JwtPayload.user 1) "s" 9999)
          "Old1!aaa" "N3w!pass").2
        (jwtSign (JwtPayload.user 1) "s" 9999) "rt1"
      = Except.ok (getAccessToken "s" 0 1) :=
  ⟨rfl, rfl, rfl⟩

/-- C9: a login with a wrong password yields the generic 401 invalid
credentials failure and leaves the store untouched, and the outcome is
identical when the isBlocked flag of the user is replaced by any value:
the blocked check only runs after a successful password match. -/
theorem c9_wrong_password_blind_to_blocked (secret : String) (now : Nat) (st : Store)
    (email password rnd : String) (u : UserRow)
    (hu : findUserByEmail st email = some u)
    (hm : bcryptCompare password u.pswdHash = false) :
    logInUser secret now st email password rnd
      = (Except.error ⟨"Invalid credentials.", 401⟩, st) ∧
    ∀ b, logInUser secret now (setBlocked st u.id b) email password rnd
      = (Except.error ⟨"Invalid credentials.", 401⟩, setBlocked st u.id b) := by
  constructor
  · simp [logInUser, logInUserBody, hu, hm, tryCatchHandler]
  · intro b
    have hp : ∀ a : UserRow,
        ((if a.id == u.id then { a with isBlocked := b } else a).email == email)
          = (a.email == email) := by
      intro a
      by_cases h : a.id == u.id <;> simp [h]
    have hfind : findUserByEmail (setBlocked st u.id b) email
        = some { u with isBlocked := b } := by
      unfold findUserByEmail setBlocked
      rw [find_map_comm _ _ hp st.users]
      unfold findUserByEmail at hu
      rw [hu, Option.map_some']
      simp
    simp [logInUser, logInUserBody, hfind, hm, tryCatchHandler]

/-- Witness for C9: wrong password against alice, and against alice with
the blocked flag flipped to true. -/
theorem c9_wrong_password_blind_to_blocked_witness :
    logInUser "s" 0 stTok "alice@x.com" "badpswd" "tok"
      = (Except.error ⟨"Invalid credentials.", 401⟩, stTok) ∧
    logInUser "s" 0 (setBlocked stTok 1 true) "alice@x.com" "badpswd" "tok"
      = (Except.error ⟨"Invalid credentials.", 401⟩, setBlocked stTok 1 true) := by
  have h := c9_wrong_password_blind_to_blocked "s" 0 stTok "alice@x.com" "badpswd" "tok"
    aliceU rfl rfl
  exact ⟨h.1, h.2 true⟩

/-- A password longer than 100 characters fails the modelled policy. -/
lemma isPswdValid_false_of_long (name email pswd : String) (h : 100 < pswd.length) :
    isPswdValid name email pswd = false := by
  have h1 : ¬ (pswd.length ≤ 100) := by omega
  simp [isPswdValid, getPswdValidities, h1]

/-- changePassword with an over-100-character new password always fails
and never changes the store, whatever the other inputs do. -/
lemma changePassword_rejects_long (secret : String) (now : Nat) (st : Store)
    (accessToken : JwtToken) (oldPassword newPassword : String)
    (hlen : 100 < newPassword.length) :
    (∃ e, (changePassword secret now st accessToken oldPassword newPassword).1
        = Except.error e) ∧
    (changePassword secret now st accessToken oldPassword newPassword).2 = st := by
  unfold changePassword changePasswordBody
  cases hv : jwtVerify secret now accessToken with
  | error e =>
      simp only [hv, tryCatchHandler]
      exact ⟨⟨_, rfl⟩, trivial⟩
  | ok p =>
      cases p with
      | email em =>
          simp only [hv, tryCatchHandler]
          exact ⟨⟨_, rfl⟩, trivial⟩
      | user uid =>
          cases hfind : findUserById st uid with
          | none =>
              simp only [hv, hfind, tryCatchHandler]
              exact ⟨⟨_, rfl⟩, trivial⟩
          | some u =>
              cases hcmp : bcryptCompare oldPassword u.pswdHash with
              | false =>
                  simp [hv, hfind, hcmp, tryCatchHandler]
              | true =>
                  have hpol := isPswdValid_false_of_long u.name u.email newPassword hlen
                  simp [hv, hfind, hcmp, hpol, tryCatchHandler]

/-- C7: a caller-supplied password longer than 100 characters is
rejected by both hashing operations before any state change: createUser
fails 400 with the password-too-long message leaving the store as it
was, and changePassword (whose bound lives in the password policy,
checked ahead of updatePswd) fails with some error leaving the store as
it was, so no hash of the overlong password is ever computed or
persisted. -/
theorem c7_overlong_password_rejected (secret : String) (now : Nat) (st : Store)
    (email name password oldPassword rnd : String) (accessToken : JwtToken)
    (hcap : st.users.length < 4294967295) (hlen : 100 < password.length) :
    createUser secret now st email name password rnd
      = (Except.error ⟨"Password too long.", 400⟩, st) ∧
    (∃ e, (changePassword secret now st accessToken oldPassword password).1
        = Except.error e) ∧
    (changePassword secret now st accessToken oldPassword password).2 = st := by
  have hc : ¬ (4294967295 ≤ st.users.length) := by omega
  have h2 := changePassword_rejects_long secret now st accessToken oldPassword password hlen
  refine ⟨?_, h2.1, h2.2⟩
  simp [createUser, createUserBody, hc, hlen, tryCatchHandler]

/-- Witness for C7: a 101-character password at signup and at password
change. -/
theorem c7_overlong_password_rejected_witness :
    createUser "s" 0 stTok "bob@x.com" "bob" longPswd "tok"
      = (Except.error ⟨"Password too long.", 400⟩, stTok) ∧
    (changePassword "s" 0 stTok (jwtSign (JwtPayload.user 1) "s" 9999)
        "Old1!aaa" longPswd).2 = stTok := by
  have h := c7_overlong_password_rejected "s" 0 stTok "bob@x.com" "bob" longPswd
    "Old1!aaa" "tok" (jwtSign (JwtPayload.user 1) "s" 9999) (by decide) (by decide)
  exact ⟨h.1, h.2.2⟩

/-- After updatePswd no refresh token of the user remains. -/
lemma updatePswd_tokens_gone (st : Store) (uid : Nat) (npw : String) :
    ∀ r ∈ (updatePswd st uid npw).refreshTokens, r.userId ≠ uid := by
  intro r hr
  unfold updatePswd destroyRefreshTokensFor at hr
  simp only [List.mem_filter] at hr
  simpa using hr.2

/-- A user row present in the store is found by id lookup. -/
lemma findUserById_isSome_of_mem (st : Store) (u : UserRow) (h : u ∈ st.users) :
    (findUserById st u.id).isSome = true := by
  unfold findUserById
  simp only [List.find?_isSome]
  exact ⟨u, h, by simp⟩

/-- After updatePswd the id lookup of the user yields a row carrying the
hash of the new password. -/
lemma updatePswd_hash (st : Store) (uid : Nat) (npw : String)
    (h : (findUserById st uid).isSome = true) :
    (findUserById (updatePswd st uid npw) uid).map UserRow.pswdHash
      = some (bcryptHash npw) := by
  have hp : ∀ a : UserRow,
      ((if a.id == uid then { a with pswdHash := bcryptHash npw } else a).id == uid)
        = (a.id == uid) := by
    intro a
    by_cases hx : a.id == uid <;> simp [hx]
  obtain ⟨x, hx⟩ := Option.isSome_iff_exists.mp h
  have hx2 : st.users.find? (fun a => a.id == uid) = some x := hx
  have hxid : (x.id == uid) = true := by
    have hq := List.find?_some hx2
    simpa using hq
  simp only [updatePswd, destroyRefreshTokensFor, findUserById]
  rw [find_map_comm _ _ hp st.users]
  unfold findUserById at hx
  rw [hx, Option.map_some', Option.map_some']
  simp [hxid]

/-- C5: the resetPassword error taxonomy and success effects. Every
verification error routes through the catch block, which maps an expired
code to 403 with the code-has-expired message, a malformed or
bad-signature code to 401 with the invalid-code message, and any other
verification error to a 500 internal failure; a valid code whose email
matches no user fails 404; and on a valid code with an existing user the
operation returns the freshly generated plaintext password, persists its
hash on the user row, and deletes every refresh token of the user. -/
theorem c5_reset_password_taxonomy (secret : String) (now : Nat) (st : Store)
    (code : JwtToken) (rnd : String) :
    (∀ e, jwtVerify secret now code = Except.error e →
        forgotPswd secret now st code rnd = (Except.error (forgotPswdCatch e), st)) ∧
    forgotPswdCatch JwtError.tokenExpiredError = ⟨"Code has expired", 403⟩ ∧
    forgotPswdCatch JwtError.jsonWebTokenError = ⟨"Invalid code", 401⟩ ∧
    forgotPswdCatch JwtError.other
      = ⟨"An unexpecteed error occurred in code verification", 500⟩ ∧
    (∀ em, jwtVerify secret now code = Except.ok (JwtPayload.email em) →
        findUserByEmail st em = none →
        forgotPswd secret now st code rnd
          = (Except.error ⟨"User doesn\x27t exist anymore", 404⟩, st)) ∧
    (∀ em u, jwtVerify secret now code = Except.ok (JwtPayload.email em) →
        findUserByEmail st em = some u →
        (forgotPswd secret now st code rnd).1 = Except.ok rnd ∧
        (∀ r ∈ (forgotPswd secret now st code rnd).2.refreshTokens, r.userId ≠ u.id) ∧
        (findUserById (forgotPswd secret now st code rnd).2 u.id).map UserRow.pswdHash
          = some (bcryptHash rnd)) := by
  refine ⟨?_, rfl, rfl, rfl, ?_, ?_⟩
  · intro e hv
    simp [forgotPswd, forgotPswdBody, hv, tryCatchHandler]
  · intro em hv hf
    simp [forgotPswd, forgotPswdBody, hv, hf, tryCatchHandler]
  · intro em u hv hf
    have h2 : (forgotPswd secret now st code rnd).2 = updatePswd st u.id rnd := by
      simp [forgotPswd, forgotPswdBody, hv, hf]
    have h1 : (forgotPswd secret now st code rnd).1 = Except.ok rnd := by
      simp [forgotPswd, forgotPswdBody, hv, hf, tryCatchHandler]
    have hmem : u ∈ st.users := List.mem_of_find?_eq_some hf
    refine ⟨h1, ?_, ?_⟩
    · rw [h2]
      exact updatePswd_tokens_gone st u.id rnd
    · rw [h2]
      exact updatePswd_hash st u.id rnd (findUserById_isSome_of_mem st u hmem)

/-- Witness for C5: an expired code, a malformed code, and a valid code
for alice, each at concrete inputs. -/
theorem c5_reset_password_taxonomy_witness :
    forgotPswd "s" 100 stTok (jwtSign (JwtPayload.email "alice@x.com") "s" 50) "Np1!x"
      = (Except.error ⟨"Code has expired", 403⟩, stTok) ∧
    forgotPswd "s" 100 stTok (JwtToken.malformed "zz") "Np1!x"
      = (Except.error ⟨"Invalid code", 401⟩, stTok) ∧
    (forgotPswd "s" 100 stTok (jwtSign (JwtPayload.email "alice@x.com") "s" 999) "Np1!x").1
      = Except.ok "Np1!x" := by
  refine ⟨?_, ?_, ?_⟩
  · have h := (c5_reset_password_taxonomy "s" 100 stTok
      (jwtSign (JwtPayload.email "alice@x.com") "s" 50) "Np1!x").1
      JwtError.tokenExpiredError (by rfl)
    rw [h]
    rfl
  · have h := (c5_reset_password_taxonomy "s" 100 stTok
      (JwtToken.malformed "zz") "Np1!x").1
      JwtError.jsonWebTokenError (by rfl)
    rw [h]
    rfl
  · exact ((c5_reset_password_taxonomy "s" 100 stTok
      (jwtSign (JwtPayload.email "alice@x.com") "s" 999) "Np1!x").2.2.2.2.2
      "alice@x.com" aliceU rfl rfl).1

/-- Logging in never changes the users table, whichever branch runs. -/
lemma logInUser_store_users (secret : String) (now : Nat) (st : Store)
    (email password rnd : String) :
    ((logInUser secret now st email password rnd).2).users = st.users := by
  rcases hu : findUserByEmail st email with _ | u
  · simp [logInUser, logInUserBody, hu]
  · rcases hm : bcryptCompare password u.pswdHash with _ | _
    · simp [logInUser, logInUserBody, hu, hm]
    · rcases hb : u.isBlocked with _ | _
      · by_cases hc : countRefreshTokens st u.id ≤ 100
        · simp [logInUser, logInUserBody, hu, hm, hb, obtainRefreshToken,
            createRefreshToken, hc]
        · rcases hn : findNewestRefreshToken st u.id with _ | row
          · simp [logInUser, logInUserBody, hu, hm, hb, obtainRefreshToken, hc, hn]
          · simp [logInUser, logInUserBody, hu, hm, hb, obtainRefreshToken, hc, hn]
      · simp [logInUser, logInUserBody, hu, hm, hb]

/-- One successful login grows the refresh-token count of the user by
one when the count is at most 100 and leaves it unchanged otherwise. -/
lemma logInUser_count (secret : String) (now : Nat) (st : Store)
    (email password rnd : String) (u : UserRow)
    (hu : findUserByEmail st email = some u)
    (hm : bcryptCompare password u.pswdHash = true)
    (hb : u.isBlocked = false) :
    countRefreshTokens ((logInUser secret now st email password rnd).2) u.id
      = if countRefreshTokens st u.id ≤ 100 then countRefreshTokens st u.id + 1
        else countRefreshTokens st u.id := by
  by_cases hc : countRefreshTokens st u.id ≤ 100
  · rw [if_pos hc]
    have hst : ((logInUser secret now st email password rnd).2)
        = { st with refreshTokens :=
              st.refreshTokens ++ [⟨u.id, rnd, now + REFRESH_TOKEN_EXPIRATION⟩] } := by
      simp [logInUser, logInUserBody, hu, hm, hb, obtainRefreshToken,
        createRefreshToken, hc]
    rw [hst]
    simp [countRefreshTokens, List.filter_append]
  · rw [if_neg hc]
    have h0 : 0 < countRefreshTokens st u.id := by omega
    obtain ⟨row, hrow⟩ :=
      Option.isSome_iff_exists.mp (findNewestRefreshToken_isSome st u.id h0)
    have hst : ((logInUser secret now st email password rnd).2) = st := by
      simp [logInUser, logInUserBody, hu, hm, hb, obtainRefreshToken, hc, hrow]
    rw [hst]

/-- Over any sequence of successful logins the refresh-token count of
the user never exceeds the larger of its initial value and 101. -/
lemma loginSequence_count_le (secret email password : String) (u : UserRow)
    (supply : List (Nat × String)) :
    ∀ st : Store, findUserByEmail st email = some u →
      bcryptCompare password u.pswdHash = true → u.isBlocked = false →
      countRefreshTokens (loginSequence secret email password st supply) u.id
        ≤ max (countRefreshTokens st u.id) 101 := by
  induction supply with
  | nil =>
      intro st _ _ _
      exact le_max_left _ _
  | cons nr rest ih =>
      intro st hu hm hb
      have husers := logInUser_store_users secret nr.1 st email password nr.2
      have hu2 : findUserByEmail ((logInUser secret nr.1 st email password nr.2).2) email
          = some u := by
        unfold findUserByEmail at hu ⊢
        rw [husers]
        exact hu
      have hcount := logInUser_count secret nr.1 st email password nr.2 u hu hm hb
      have h := ih ((logInUser secret nr.1 st email password nr.2).2) hu2 hm hb
      have hstep : loginSequence secret email password st (nr :: rest)
          = loginSequence secret email password
              ((logInUser secret nr.1 st email password nr.2).2) rest := rfl
      rw [hstep]
      refine le_trans h ?_
      rw [hcount]
      by_cases hc : countRefreshTokens st u.id ≤ 100
      · rw [if_pos hc]
        omega
      · rw [if_neg hc]

/-- C4: over 101 consecutive successful logins of a user who already
holds the signup token (count at least 1), at most 100 further refresh
tokens are ever created, and every single login that sees a count above
100 creates nothing (the store is returned untouched) and returns the
most-recently-expiring existing token of the user. -/
theorem c4_login_refresh_token_cap (secret : String) (st : Store)
    (email password : String) (u : UserRow) (supply : List (Nat × String))
    (hu : findUserByEmail st email = some u)
    (hm : bcryptCompare password u.pswdHash = true)
    (hb : u.isBlocked = false)
    (hlen : supply.length = 101)
    (hfirst : 1 ≤ countRefreshTokens st u.id) :
    countRefreshTokens (loginSequence secret email password st supply) u.id
      ≤ countRefreshTokens st u.id + 100 ∧
    (∀ now rnd st2, findUserByEmail st2 email = some u →
       100 < countRefreshTokens st2 u.id →
       ∃ row, findNewestRefreshToken st2 u.id = some row ∧
         logInUser secret now st2 email password rnd
           = (Except.ok ⟨u.id, u.name, getAccessToken secret now u.id, row.refreshToken⟩,
              st2)) := by
  constructor
  · have h := loginSequence_count_le secret email password u supply st hu hm hb
    omega
  · intro now rnd st2 hu2 hc
    have h0 : 0 < countRefreshTokens st2 u.id := by omega
    obtain ⟨row, hrow⟩ :=
      Option.isSome_iff_exists.mp (findNewestRefreshToken_isSome st2 u.id h0)
    refine ⟨row, hrow, ?_⟩
    have hc2 : ¬ (countRefreshTokens st2 u.id ≤ 100) := by omega
    simp [logInUser, logInUserBody, hu2, hm, hb, obtainRefreshToken, hrow, hc2,
      tryCatchHandler]

/-- Witness for C4: alice starts with her one signup token and logs in
101 more times. -/
theorem c4_login_refresh_token_cap_witness :
    countRefreshTokens (loginSequence "s" "alice@x.com" "Old1!aaa" stTok supply101) 1
      ≤ countRefreshTokens stTok 1 + 100 :=
  (c4_login_refresh_token_cap "s" stTok "alice@x.com" "Old1!aaa" aliceU supply101
    rfl rfl rfl (by simp [supply101]) (by decide)).1
